import Mathlib

/-!
Verification of the userdata registration/dispatch subsystem of the `mlua`
binding layer (files `src/userdata.rs` and `src/userdata_impl.rs`), as a
shallow embedding in Lean.  Rust machine types are modelled by `Nat`/`Int`,
fallible operations by `Except Error`, and the runtime-checked sharing
primitives (`RefCell`, `Mutex`, `RwLock`) by an explicit borrow-state value.
The feature configuration modelled is `lua54` + `parking_lot` + non-`send`
(so `Rc<RefCell<T>>` is a recognized wrapper) — the configuration the
specification describes.
-/

namespace Mlua

/-- A Lua runtime value, as far as this subsystem observes it: the metatable
machinery distinguishes nil, tables and functions (for the index/new-index
type constraint), all other values are opaque. -/
inductive LuaValue where
  | nil
  | boolean (b : Bool)
  | integer (n : Int)
  | str (s : String)
  | table (id : Nat)
  | func (id : Nat)
deriving DecidableEq

/-- The error kinds of `error.rs` that the analyzed sources construct.
Spec vocabulary: `UserDataBorrowError` is the spec's BorrowConflict,
`UserDataBorrowMutError` is BorrowMutConflict, `UserDataTypeMismatch` is
TypeMismatch, and `RuntimeError "user value index out of bounds"` is the
spec's IndexOutOfBounds. -/
inductive Error where
  | UserDataTypeMismatch
  | UserDataBorrowError
  | UserDataBorrowMutError
  | RecursiveMutCallback
  | MetaMethodRestricted (name : String)
  | MetaMethodTypeError (method : String) (typeName : String)
  | RuntimeError (msg : String)
  | FromLuaConversionError (src : String) (dst : String)
deriving DecidableEq

/-- The `MetaMethod` enum of `userdata.rs` (all variants of the source,
including the feature-gated ones). -/
inductive MetaMethod where
  | Add | Sub | Mul | Div | Mod | Pow | Unm
  | IDiv | BAnd | BOr | BXor | BNot | Shl | Shr
  | Concat | Len | Eq | Lt | Le | Index | NewIndex | Call | ToString
  | Pairs | IPairs | Iter | Close
deriving DecidableEq

/-- `MetaMethod::name`: the Lua metamethod name of each variant. -/
def MetaMethod.name : MetaMethod → String
  | .Add => "__add"
  | .Sub => "__sub"
  | .Mul => "__mul"
  | .Div => "__div"
  | .Mod => "__mod"
  | .Pow => "__pow"
  | .Unm => "__unm"
  | .IDiv => "__idiv"
  | .BAnd => "__band"
  | .BOr => "__bor"
  | .BXor => "__bxor"
  | .BNot => "__bnot"
  | .Shl => "__shl"
  | .Shr => "__shr"
  | .Concat => "__concat"
  | .Len => "__len"
  | .Eq => "__eq"
  | .Lt => "__lt"
  | .Le => "__le"
  | .Index => "__index"
  | .NewIndex => "__newindex"
  | .Call => "__call"
  | .ToString => "__tostring"
  | .Pairs => "__pairs"
  | .IPairs => "__ipairs"
  | .Iter => "__iter"
  | .Close => "__close"

/-- Structural model of Rust `str::starts_with` on character lists. -/
def listStartsWith : List Char → List Char → Bool
  | _, [] => true
  | [], _ :: _ => false
  | c :: s, d :: p => c == d && listStartsWith s p

/-- Rust `str::starts_with` on strings. -/
def strStartsWith (s p : String) : Bool :=
  listStartsWith s.data p.data

/-- `MetaMethod::validate`: rejects the reserved names `__gc`, `__metatable`
and anything starting with the internal prefix `__mlua`. -/
def MetaMethod.validate (name : String) : Except Error String :=
  if name = "__gc" then .error (.MetaMethodRestricted name)
  else if name = "__metatable" then .error (.MetaMethodRestricted name)
  else if strStartsWith name "__mlua" = true then .error (.MetaMethodRestricted name)
  else .ok name

/-- The set of names `MetaMethod::validate` rejects, as stated by the spec. -/
def reservedName (name : String) : Prop :=
  name = "__gc" ∨ name = "__metatable" ∨ strStartsWith name "__mlua" = true

instance (name : String) : Decidable (reservedName name) := by
  unfold reservedName; infer_instance

/-- A userdata metatable, observed as a key-value map (Lua table with string
keys).  `rawSet` is Lua raw assignment: the most recent binding wins. -/
def Metatable := List (String × LuaValue)

/-- Lua raw read: the value bound to `key`, or nil when absent. -/
def Metatable.rawGet (mt : Metatable) (key : String) : LuaValue :=
  match mt.lookup key with
  | some v => v
  | none => .nil

/-- Lua raw write. -/
def Metatable.rawSet (mt : Metatable) (key : String) (v : LuaValue) : Metatable :=
  (key, v) :: mt

/-- Modelled from the spec: `Table::contains_key` (in `table.rs`, outside the
analyzed sources) — true iff the table holds a non-nil value for the key. -/
def Metatable.containsKey (mt : Metatable) (key : String) : Bool :=
  mt.rawGet key ≠ .nil

/-- `UserDataMetatable::get`: validates the key, then raw-reads it. -/
def UserDataMetatable.get (mt : Metatable) (key : String) : Except Error LuaValue :=
  match MetaMethod.validate key with
  | .ok k => .ok (mt.rawGet k)
  | .error e => .error e

/-- `UserDataMetatable::set`: validates the key, additionally rejects
`__index` and `__newindex` (their values are cached elsewhere), then
raw-writes it. -/
def UserDataMetatable.set (mt : Metatable) (key : String) (v : LuaValue) :
    Except Error Metatable :=
  match MetaMethod.validate key with
  | .ok k =>
    if k = MetaMethod.Index.name ∨ k = MetaMethod.NewIndex.name then
      .error (.MetaMethodRestricted k)
    else
      .ok (mt.rawSet k v)
  | .error e => .error e

/-- `UserDataMetatable::contains`: validates the key, then checks for a
non-nil binding. -/
def UserDataMetatable.contains (mt : Metatable) (key : String) : Except Error Bool :=
  match MetaMethod.validate key with
  | .ok k => .ok (mt.containsKey k)
  | .error e => .error e

/-- Modelled from the spec: materializing a registered meta-method or
meta-field name validates it with `MetaMethod::validate` before installing it
into the cached metatable (the registration driver lives in `lua.rs`, outside
the analyzed sources). -/
def registerMetaCallbackName (name : String) : Except Error String :=
  MetaMethod.validate name

/-- Claim C4: for every access path that validates a metamethod name
(meta registration, metatable get, metatable set, metatable contains), the
names `__gc`, `__metatable`, and any name beginning with the reserved prefix
`__mlua` always fail with MetaMethodRestricted; every other name passes
validation. -/
theorem metamethod_validation_reserved (name : String) (mt : Metatable) (v : LuaValue) :
    (reservedName name →
        MetaMethod.validate name = .error (.MetaMethodRestricted name)
      ∧ registerMetaCallbackName name = .error (.MetaMethodRestricted name)
      ∧ UserDataMetatable.get mt name = .error (.MetaMethodRestricted name)
      ∧ UserDataMetatable.set mt name v = .error (.MetaMethodRestricted name)
      ∧ UserDataMetatable.contains mt name = .error (.MetaMethodRestricted name))
  ∧ (¬ reservedName name → MetaMethod.validate name = .ok name) := by
  have hval : ∀ h : reservedName name,
      MetaMethod.validate name = .error (.MetaMethodRestricted name) := by
    intro h
    unfold MetaMethod.validate
    split
    · rfl
    · split
      · rfl
      · split
        · rfl
        · exfalso
          rcases h with h | h | h <;> simp_all
  constructor
  · intro h
    refine ⟨hval h, hval h, ?_, ?_, ?_⟩
    · unfold UserDataMetatable.get
      rw [hval h]
    · unfold UserDataMetatable.set
      rw [hval h]
    · unfold UserDataMetatable.contains
      rw [hval h]
  · intro h
    unfold reservedName at h
    push_neg at h
    obtain ⟨h1, h2, h3⟩ := h
    unfold MetaMethod.validate
    simp [h1, h2, h3]

/-- Witness for C4 at the concrete names `__gc` (reserved) and `__add`
(not reserved). -/
theorem metamethod_validation_reserved_witness :
    (MetaMethod.validate "__gc" = .error (.MetaMethodRestricted "__gc")
      ∧ registerMetaCallbackName "__gc" = .error (.MetaMethodRestricted "__gc")
      ∧ UserDataMetatable.get [] "__gc" = .error (.MetaMethodRestricted "__gc")
      ∧ UserDataMetatable.set [] "__gc" .nil = .error (.MetaMethodRestricted "__gc")
      ∧ UserDataMetatable.contains [] "__gc" = .error (.MetaMethodRestricted "__gc"))
  ∧ MetaMethod.validate "__add" = .ok "__add" :=
  ⟨(metamethod_validation_reserved "__gc" [] .nil).1 (Or.inl rfl),
   (metamethod_validation_reserved "__add" [] .nil).2 (by decide)⟩

/-- Claim C10: every variant of the `MetaMethod` enum has a name that passes
`MetaMethod::validate` — the catalog of overridable hooks is disjoint from
the reserved set, so every enumerated metamethod is registrable. -/
theorem metamethod_catalog_registrable (m : MetaMethod) :
    MetaMethod.validate m.name = .ok m.name := by
  cases m <;> rfl

/-- `USER_VALUE_MAXSLOT` of `userdata.rs` (lua54): indices strictly below it
live in inline uservalue slots; slot `USER_VALUE_MAXSLOT` itself holds the
lazily created overflow table. -/
def USER_VALUE_MAXSLOT : Nat := 8

/-- The auxiliary user-value storage attached to one userdata object, as the
Lua 5.4 runtime holds it: the inline uservalue slots `1 .. 7` (observed
through `lua_setiuservalue` / `lua_getiuservalue`, modelled from the spec
since the FFI lives outside the analyzed sources), and the overflow table
stored in slot 8, absent until the first overflow write. -/
structure UserValues where
  slots : Nat → LuaValue
  overflow : Option (Nat → LuaValue)

/-- A fresh userdata object: every slot nil, no overflow table. -/
def UserValues.empty : UserValues :=
  { slots := fun _ => .nil, overflow := none }

/-- `AnyUserData::set_nth_user_value`: bounds-checks `n` against `[1, 65535]`
before touching the runtime object, stores inline when `n` is below
`USER_VALUE_MAXSLOT`, otherwise writes index `n - USER_VALUE_MAXSLOT + 1` of
the overflow table, creating it on first use. -/
def set_nth_user_value (s : UserValues) (n : Nat) (v : LuaValue) :
    Except Error UserValues :=
  if n < 1 ∨ n > 65535 then
    .error (.RuntimeError "user value index out of bounds")
  else if n < USER_VALUE_MAXSLOT then
    .ok { s with slots := fun i => if i = n then v else s.slots i }
  else
    let t := s.overflow.getD (fun _ => .nil)
    let t' : Nat → LuaValue := fun i => if i = n - USER_VALUE_MAXSLOT + 1 then v else t i
    .ok { s with overflow := some t' }

/-- `AnyUserData::get_nth_user_value`: bounds-checks `n` against `[1, 65535]`
before touching the runtime object, reads the inline slot when `n` is below
`USER_VALUE_MAXSLOT`, otherwise reads index `n - USER_VALUE_MAXSLOT + 1` of
the overflow table (nil when the table was never created). -/
def get_nth_user_value (s : UserValues) (n : Nat) : Except Error LuaValue :=
  if n < 1 ∨ n > 65535 then
    .error (.RuntimeError "user value index out of bounds")
  else if n < USER_VALUE_MAXSLOT then
    .ok (s.slots n)
  else
    match s.overflow with
    | none => .ok .nil
    | some t => .ok (t (n - USER_VALUE_MAXSLOT + 1))

/-- Claim C6: for every index outside `[1, 65535]` both user-value accessors
fail with the index-out-of-bounds error (the bounds check runs before the
runtime object is touched); for every index inside the range the bounds
check passes and the access succeeds. -/
theorem user_value_bounds (s : UserValues) (n : Nat) (v : LuaValue) :
    ((n < 1 ∨ n > 65535) →
        set_nth_user_value s n v
          = .error (.RuntimeError "user value index out of bounds")
      ∧ get_nth_user_value s n
          = .error (.RuntimeError "user value index out of bounds"))
  ∧ (1 ≤ n → n ≤ 65535 →
        (∃ s', set_nth_user_value s n v = .ok s')
      ∧ (∃ w, get_nth_user_value s n = .ok w)) := by
  constructor
  · intro h
    constructor
    · unfold set_nth_user_value
      rw [if_pos h]
    · unfold get_nth_user_value
      rw [if_pos h]
  · intro h1 h2
    have hb : ¬ (n < 1 ∨ n > 65535) := by omega
    constructor
    · unfold set_nth_user_value
      rw [if_neg hb]
      split
      · exact ⟨_, rfl⟩
      · exact ⟨_, rfl⟩
    · unfold get_nth_user_value
      rw [if_neg hb]
      split
      · exact ⟨_, rfl⟩
      · split
        · exact ⟨_, rfl⟩
        · exact ⟨_, rfl⟩

/-- Witness for C6 at the concrete indices 0 (out of bounds) and 1
(in bounds). -/
theorem user_value_bounds_witness :
    (set_nth_user_value UserValues.empty 0 (.integer 5)
        = .error (.RuntimeError "user value index out of bounds"))
  ∧ (∃ s', set_nth_user_value UserValues.empty 1 (.integer 5) = .ok s') :=
  ⟨((user_value_bounds UserValues.empty 0 (.integer 5)).1 (Or.inl (by decide))).1,
   ((user_value_bounds UserValues.empty 1 (.integer 5)).2 (by decide) (by decide)).1⟩

/-- Claim C7: for every in-range index, writing a user value and reading it
back returns the value unchanged (covering both the inline-slot range and the
overflow-table range), and every other in-range index reads exactly what it
read before the write. -/
theorem user_value_roundtrip (s : UserValues) (n : Nat) (v : LuaValue)
    (h1 : 1 ≤ n) (h2 : n ≤ 65535) :
    ∃ s', set_nth_user_value s n v = .ok s'
      ∧ get_nth_user_value s' n = .ok v
      ∧ ∀ m, 1 ≤ m → m ≤ 65535 → m ≠ n →
          get_nth_user_value s' m = get_nth_user_value s m := by
  have hb : ¬ (n < 1 ∨ n > 65535) := by omega
  by_cases hin : n < USER_VALUE_MAXSLOT
  · refine ⟨{ s with slots := fun i => if i = n then v else s.slots i }, ?_, ?_, ?_⟩
    · unfold set_nth_user_value
      rw [if_neg hb, if_pos hin]
    · unfold get_nth_user_value
      rw [if_neg hb, if_pos hin]
      simp
    · intro m hm1 hm2 hmn
      have hmb : ¬ (m < 1 ∨ m > 65535) := by omega
      unfold get_nth_user_value
      rw [if_neg hmb, if_neg hmb]
      by_cases hmin : m < USER_VALUE_MAXSLOT
      · rw [if_pos hmin, if_pos hmin]
        simp [hmn]
      · rw [if_neg hmin, if_neg hmin]
  · refine ⟨{ s with overflow := some (fun i =>
        if i = n - USER_VALUE_MAXSLOT + 1 then v
        else (s.overflow.getD (fun _ => .nil)) i) }, ?_, ?_, ?_⟩
    · unfold set_nth_user_value
      rw [if_neg hb, if_neg hin]
    · unfold get_nth_user_value
      rw [if_neg hb, if_neg hin]
      simp
    · intro m hm1 hm2 hmn
      have hmb : ¬ (m < 1 ∨ m > 65535) := by omega
      unfold get_nth_user_value
      rw [if_neg hmb, if_neg hmb]
      by_cases hmin : m < USER_VALUE_MAXSLOT
      · rw [if_pos hmin, if_pos hmin]
      · rw [if_neg hmin, if_neg hmin]
        have hne : m - USER_VALUE_MAXSLOT + 1 ≠ n - USER_VALUE_MAXSLOT + 1 := by
          unfold USER_VALUE_MAXSLOT at *
          omega
        cases ho : s.overflow with
        | none => simp [ho, hne]
        | some t => simp [ho, hne]

/-- Witness for C7 at the concrete overflow index 9 on a fresh object. -/
theorem user_value_roundtrip_witness :
    ∃ s', set_nth_user_value UserValues.empty 9 (.integer 5) = .ok s'
      ∧ get_nth_user_value s' 9 = .ok (.integer 5)
      ∧ ∀ m, 1 ≤ m → m ≤ 65535 → m ≠ 9 →
          get_nth_user_value s' m = get_nth_user_value UserValues.empty m :=
  user_value_roundtrip UserValues.empty 9 (.integer 5) (by decide) (by decide)

/-- The possible type identities of a live userdata object, as the dispatchers
of `userdata_impl.rs` distinguish them: the exact host type `T`, each
recognized ownership wrapper around `T` (`Rc<RefCell<T>>`, `Arc<Mutex<T>>`,
`Arc<parking_lot::Mutex<T>>`, `Arc<RwLock<T>>`, `Arc<parking_lot::RwLock<T>>`),
or some unrelated registered type. -/
inductive ObjKind where
  | exact
  | rcRefCell
  | arcMutex
  | plMutex
  | arcRwLock
  | plRwLock
  | unrelated
deriving DecidableEq

/-- An assignment of a Rust `TypeId` to each of the kinds above.  Distinct
types have distinct `TypeId`s, so the assignment is injective. -/
structure TypeIdEnv where
  idOf : ObjKind → Nat
  inj : Function.Injective idOf

/-- A concrete `TypeId` assignment, for evaluating the theorems on inputs. -/
def stdEnv : TypeIdEnv where
  idOf k :=
    match k with
    | .exact => 0
    | .rcRefCell => 1
    | .arcMutex => 2
    | .plMutex => 3
    | .arcRwLock => 4
    | .plRwLock => 5
    | .unrelated => 6
  inj := by
    intro a b h
    cases a <;> cases b <;> simp_all

/-- The observable state of a runtime-checked sharing primitive (`RefCell`
borrow flag, `Mutex` lock, `RwLock` lock): free, shared by `n + 1` readers,
or exclusively held. -/
inductive BorrowState where
  | free
  | shared (n : Nat)
  | exclusive
deriving DecidableEq

/-- `RefCell::try_borrow` succeeds iff the cell is not exclusively borrowed. -/
def tryBorrowOk : BorrowState → Bool
  | .exclusive => false
  | _ => true

/-- `RefCell::try_borrow_mut` succeeds iff no borrow is outstanding. -/
def tryBorrowMutOk : BorrowState → Bool
  | .free => true
  | _ => false

/-- `Mutex::try_lock` succeeds iff the mutex is unlocked; it returns
immediately either way (never blocks). -/
def tryLockOk : BorrowState → Bool := tryBorrowMutOk

/-- `RwLock::try_read` succeeds iff no writer holds the lock; never blocks. -/
def tryReadOk : BorrowState → Bool := tryBorrowOk

/-- `RwLock::try_write` succeeds iff the lock is entirely free; never
blocks. -/
def tryWriteOk : BorrowState → Bool := tryBorrowMutOk

/-- One live userdata object as a dispatcher observes it: its type identity
(`kind`), the borrow flag of the `UserDataCell` holding it (`outer`), the
state of the ownership wrapper's own primitive (`inner`, meaningless for the
exact kind), the payload, and whether `take` has already detached the payload
(destructed marker metatable). -/
structure LiveUserData (Tv : Type) where
  kind : ObjKind
  outer : BorrowState
  inner : BorrowState
  value : Tv
  destructed : Bool
deriving DecidableEq

/-- Modelled from the spec: `Lua::push_userdata_ref` (in `lua.rs`, outside
the analyzed sources) pushes the object and reports its registered type
identity; for an object left in the destructed state no registered identity
is reported, so every subsequent type match fails. -/
def pushUserdataRef {Tv : Type} (env : TypeIdEnv) (obj : LiveUserData Tv) : Option Nat :=
  if obj.destructed then none else some (env.idOf obj.kind)

/-- The first argument of a generated callback, after `args.pop_front()`:
either a userdata handle or some other Lua value (which
`AnyUserData::from_lua` rejects with a conversion error). -/
inductive CallbackArg (Tv : Type) where
  | userdata (obj : LiveUserData Tv)
  | nonUserdata
deriving DecidableEq

/-- The type-identity match chain shared by `box_method` and
`box_method_mut`: the pushed object's `TypeId` is compared against `T` first,
then against each recognized wrapper type in source order, stopping at the
first hit; no hit resolves to nothing. -/
def resolveKind (env : TypeIdEnv) (id : Nat) : Option ObjKind :=
  if id = env.idOf .exact then some .exact
  else if id = env.idOf .rcRefCell then some .rcRefCell
  else if id = env.idOf .arcMutex then some .arcMutex
  else if id = env.idOf .plMutex then some .plMutex
  else if id = env.idOf .arcRwLock then some .arcRwLock
  else if id = env.idOf .plRwLock then some .plRwLock
  else none

/-- The per-kind body of a matched `box_method` branch: `get_userdata_ref`
borrows the `UserDataCell` (shared), then the wrapper's own primitive is
acquired non-exclusively (`try_borrow` / `try_lock` / `try_read`), every
failure becoming `UserDataBorrowError`; on success the host closure runs on
the borrowed payload and the remaining arguments. -/
def sharedDispatch {Tv R : Type} (k : ObjKind) (obj : LiveUserData Tv)
    (m : Tv → List (CallbackArg Tv) → Except Error R)
    (rest : List (CallbackArg Tv)) : Except Error R :=
  match k with
  | .exact =>
    if tryBorrowOk obj.outer then m obj.value rest
    else .error .UserDataBorrowError
  | .rcRefCell =>
    if tryBorrowOk obj.outer then
      if tryBorrowOk obj.inner then m obj.value rest
      else .error .UserDataBorrowError
    else .error .UserDataBorrowError
  | .arcMutex =>
    if tryBorrowOk obj.outer then
      if tryLockOk obj.inner then m obj.value rest
      else .error .UserDataBorrowError
    else .error .UserDataBorrowError
  | .plMutex =>
    if tryBorrowOk obj.outer then
      if tryLockOk obj.inner then m obj.value rest
      else .error .UserDataBorrowError
    else .error .UserDataBorrowError
  | .arcRwLock =>
    if tryBorrowOk obj.outer then
      if tryReadOk obj.inner then m obj.value rest
      else .error .UserDataBorrowError
    else .error .UserDataBorrowError
  | .plRwLock =>
    if tryBorrowOk obj.outer then
      if tryReadOk obj.inner then m obj.value rest
      else .error .UserDataBorrowError
    else .error .UserDataBorrowError
  | .unrelated => .error .UserDataTypeMismatch

/-- The per-kind body of a matched `box_method_mut` branch: `get_userdata_mut`
borrows the `UserDataCell` mutably, then the wrapper's own primitive is
acquired exclusively (`try_borrow_mut` / `try_lock` / `try_write`), every
failure becoming `UserDataBorrowMutError`. -/
def mutDispatch {Tv R : Type} (k : ObjKind) (obj : LiveUserData Tv)
    (m : Tv → List (CallbackArg Tv) → Except Error R)
    (rest : List (CallbackArg Tv)) : Except Error R :=
  match k with
  | .exact =>
    if tryBorrowMutOk obj.outer then m obj.value rest
    else .error .UserDataBorrowMutError
  | .rcRefCell =>
    if tryBorrowMutOk obj.outer then
      if tryBorrowMutOk obj.inner then m obj.value rest
      else .error .UserDataBorrowMutError
    else .error .UserDataBorrowMutError
  | .arcMutex =>
    if tryBorrowMutOk obj.outer then
      if tryLockOk obj.inner then m obj.value rest
      else .error .UserDataBorrowMutError
    else .error .UserDataBorrowMutError
  | .plMutex =>
    if tryBorrowMutOk obj.outer then
      if tryLockOk obj.inner then m obj.value rest
      else .error .UserDataBorrowMutError
    else .error .UserDataBorrowMutError
  | .arcRwLock =>
    if tryBorrowMutOk obj.outer then
      if tryWriteOk obj.inner then m obj.value rest
      else .error .UserDataBorrowMutError
    else .error .UserDataBorrowMutError
  | .plRwLock =>
    if tryBorrowMutOk obj.outer then
      if tryWriteOk obj.inner then m obj.value rest
      else .error .UserDataBorrowMutError
    else .error .UserDataBorrowMutError
  | .unrelated => .error .UserDataTypeMismatch

/-- `StaticUserDataMethods::box_method`: pops the first stack argument,
converts it to a userdata handle, resolves its type identity through the
match chain, and runs the matched branch; a missing or non-userdata first
argument is a conversion error, an unmatched identity is
`UserDataTypeMismatch`.  The host closure `m` stands for the source's
`method` together with the conversion of the remaining arguments and of the
result. -/
def box_method {Tv R : Type} (env : TypeIdEnv)
    (m : Tv → List (CallbackArg Tv) → Except Error R)
    (args : List (CallbackArg Tv)) : Except Error R :=
  match args with
  | .userdata obj :: rest =>
    match pushUserdataRef env obj with
    | some id =>
      match resolveKind env id with
      | some k => sharedDispatch k obj m rest
      | none => .error .UserDataTypeMismatch
    | none => .error .UserDataTypeMismatch
  | .nonUserdata :: _ => .error (.FromLuaConversionError "value" "userdata")
  | [] => .error (.FromLuaConversionError "missing argument" "userdata")

/-- `StaticUserDataMethods::box_method_mut`: like `box_method`, but the host
closure lives in a `RefCell` so that its captured state can be mutated;
`methodBusy` is true exactly when an activation of this callback is still
executing (the `RefCell` is mutably borrowed), in which case the call fails
with `RecursiveMutCallback` before any dispatch.  All acquisitions are
exclusive. -/
def box_method_mut {Tv R : Type} (env : TypeIdEnv) (methodBusy : Bool)
    (m : Tv → List (CallbackArg Tv) → Except Error R)
    (args : List (CallbackArg Tv)) : Except Error R :=
  match args with
  | .userdata obj :: rest =>
    if methodBusy then .error .RecursiveMutCallback
    else
      match pushUserdataRef env obj with
      | some id =>
        match resolveKind env id with
        | some k => mutDispatch k obj m rest
        | none => .error .UserDataTypeMismatch
      | none => .error .UserDataTypeMismatch
  | .nonUserdata :: _ => .error (.FromLuaConversionError "value" "userdata")
  | [] => .error (.FromLuaConversionError "missing argument" "userdata")

/-- `StaticUserDataMethods::box_function_mut`: the mutably-captured free
function in a `RefCell`; a call that begins while an activation is still
executing (`fnBusy`) fails with `RecursiveMutCallback` instead of re-entering
the closure. -/
def box_function_mut {Tv R : Type} (fnBusy : Bool)
    (f : List (CallbackArg Tv) → Except Error R)
    (args : List (CallbackArg Tv)) : Except Error R :=
  if fnBusy then .error .RecursiveMutCallback else f args

/-- Whether the shared-access acquisition sequence of `box_method` succeeds
on this object: the outer cell borrow, then the matched wrapper's own
non-exclusive acquire. -/
def sharedAcquireOk {Tv : Type} (obj : LiveUserData Tv) : Bool :=
  tryBorrowOk obj.outer &&
    (match obj.kind with
     | .rcRefCell => tryBorrowOk obj.inner
     | .arcMutex => tryLockOk obj.inner
     | .plMutex => tryLockOk obj.inner
     | .arcRwLock => tryReadOk obj.inner
     | .plRwLock => tryReadOk obj.inner
     | _ => true)

/-- Whether the exclusive-access acquisition sequence of `box_method_mut`
succeeds on this object. -/
def mutAcquireOk {Tv : Type} (obj : LiveUserData Tv) : Bool :=
  tryBorrowMutOk obj.outer &&
    (match obj.kind with
     | .rcRefCell => tryBorrowMutOk obj.inner
     | .arcMutex => tryLockOk obj.inner
     | .plMutex => tryLockOk obj.inner
     | .arcRwLock => tryWriteOk obj.inner
     | .plRwLock => tryWriteOk obj.inner
     | _ => true)

/-- The match chain resolves a `TypeId` to the kind carrying it, and to
nothing when no recognized kind carries it; in particular the exact type is
matched before any wrapper kind. -/
theorem resolveKind_idOf (env : TypeIdEnv) (k : ObjKind) :
    resolveKind env (env.idOf k) = if k = .unrelated then none else some k := by
  cases k <;> simp [resolveKind, env.inj.eq_iff]

/-- Helper: on a live object the shared dispatcher runs the branch of the
object's actual kind. -/
theorem box_method_resolved {Tv R : Type} (env : TypeIdEnv) (obj : LiveUserData Tv)
    (m : Tv → List (CallbackArg Tv) → Except Error R)
    (rest : List (CallbackArg Tv))
    (hd : obj.destructed = false) (hk : obj.kind ≠ .unrelated) :
    box_method env m (.userdata obj :: rest) = sharedDispatch obj.kind obj m rest := by
  simp [box_method, pushUserdataRef, hd, resolveKind_idOf, hk]

/-- Helper: on a live object the exclusive dispatcher (no overlapping
activation) runs the branch of the object's actual kind. -/
theorem box_method_mut_resolved {Tv R : Type} (env : TypeIdEnv) (obj : LiveUserData Tv)
    (m : Tv → List (CallbackArg Tv) → Except Error R)
    (rest : List (CallbackArg Tv))
    (hd : obj.destructed = false) (hk : obj.kind ≠ .unrelated) :
    box_method_mut env false m (.userdata obj :: rest) = mutDispatch obj.kind obj m rest := by
  simp [box_method_mut, pushUserdataRef, hd, resolveKind_idOf, hk]

/-- Helper: acquisition outcome of the shared branch bodies. -/
theorem sharedDispatch_acquire {Tv R : Type} (obj : LiveUserData Tv)
    (m : Tv → List (CallbackArg Tv) → Except Error R)
    (rest : List (CallbackArg Tv)) (hk : obj.kind ≠ .unrelated) :
    (sharedAcquireOk obj = false →
        sharedDispatch obj.kind obj m rest = .error .UserDataBorrowError)
  ∧ (sharedAcquireOk obj = true →
        sharedDispatch obj.kind obj m rest = m obj.value rest) := by
  obtain ⟨k, o, i, v, d⟩ := obj
  constructor <;> intro hacq <;>
    cases k <;> cases o <;> cases i <;>
      simp_all [sharedAcquireOk, sharedDispatch,
        tryBorrowOk, tryBorrowMutOk, tryLockOk, tryReadOk, tryWriteOk]

/-- Helper: acquisition outcome of the exclusive branch bodies. -/
theorem mutDispatch_acquire {Tv R : Type} (obj : LiveUserData Tv)
    (m : Tv → List (CallbackArg Tv) → Except Error R)
    (rest : List (CallbackArg Tv)) (hk : obj.kind ≠ .unrelated) :
    (mutAcquireOk obj = false →
        mutDispatch obj.kind obj m rest = .error .UserDataBorrowMutError)
  ∧ (mutAcquireOk obj = true →
        mutDispatch obj.kind obj m rest = m obj.value rest) := by
  obtain ⟨k, o, i, v, d⟩ := obj
  constructor <;> intro hacq <;>
    cases k <;> cases o <;> cases i <;>
      simp_all [mutAcquireOk, mutDispatch,
        tryBorrowOk, tryBorrowMutOk, tryLockOk, tryReadOk, tryWriteOk]

/-- Claim C1: a generated method callback resolves its first stack argument's
type identity through the fixed priority chain (exact type first, then each
recognized wrapper kind, stopping at the first identity match): the call is
dispatched to the branch of the object's actual kind, and when no identity
matches the call fails with TypeMismatch. -/
theorem dispatch_priority {Tv R : Type} (env : TypeIdEnv) (obj : LiveUserData Tv)
    (m : Tv → List (CallbackArg Tv) → Except Error R)
    (rest : List (CallbackArg Tv))
    (hd : obj.destructed = false) :
    (obj.kind ≠ .unrelated →
        box_method env m (.userdata obj :: rest) = sharedDispatch obj.kind obj m rest
      ∧ box_method_mut env false m (.userdata obj :: rest) = mutDispatch obj.kind obj m rest)
  ∧ (obj.kind = .unrelated →
        box_method env m (.userdata obj :: rest) = .error .UserDataTypeMismatch
      ∧ box_method_mut env false m (.userdata obj :: rest) = .error .UserDataTypeMismatch) := by
  constructor
  · intro hk
    exact ⟨box_method_resolved env obj m rest hd hk,
           box_method_mut_resolved env obj m rest hd hk⟩
  · intro hk
    constructor
    · simp [box_method, pushUserdataRef, hd, resolveKind_idOf, hk]
    · simp [box_method_mut, pushUserdataRef, hd, resolveKind_idOf, hk]

/-- Witness for C1: a live object of an unrelated type makes the dispatcher
fail with TypeMismatch, and a live `Arc<Mutex<T>>` object is dispatched to
the mutex branch. -/
theorem dispatch_priority_witness :
    box_method stdEnv (fun v _ => Except.ok v)
        [CallbackArg.userdata ⟨.unrelated, .free, .free, (0 : Nat), false⟩]
      = .error .UserDataTypeMismatch
  ∧ box_method stdEnv (fun v _ => Except.ok v)
        [CallbackArg.userdata ⟨.arcMutex, .free, .free, (7 : Nat), false⟩]
      = sharedDispatch .arcMutex ⟨.arcMutex, .free, .free, 7, false⟩ (fun v _ => Except.ok v) [] :=
  ⟨((dispatch_priority stdEnv ⟨.unrelated, .free, .free, 0, false⟩
      (fun v _ => Except.ok v) [] rfl).2 rfl).1,
   ((dispatch_priority stdEnv ⟨.arcMutex, .free, .free, 7, false⟩
      (fun v _ => Except.ok v) [] rfl).1 (by decide)).1⟩

/-- Claim C2: whenever the matched ownership kind cannot grant the required
access (outer cell mutably borrowed, `Rc<RefCell>` incompatibly borrowed, or
a lock try-acquire failing), the shared dispatcher fails with BorrowConflict
and the exclusive dispatcher with BorrowMutConflict; when acquisition
succeeds the host closure runs — the call never blocks and never panics,
every path returning a result. -/
theorem dispatch_borrow_conflict {Tv R : Type} (env : TypeIdEnv)
    (obj : LiveUserData Tv)
    (m : Tv → List (CallbackArg Tv) → Except Error R)
    (rest : List (CallbackArg Tv))
    (hd : obj.destructed = false) (hk : obj.kind ≠ .unrelated) :
    (sharedAcquireOk obj = false →
        box_method env m (.userdata obj :: rest) = .error .UserDataBorrowError)
  ∧ (mutAcquireOk obj = false →
        box_method_mut env false m (.userdata obj :: rest) = .error .UserDataBorrowMutError)
  ∧ (sharedAcquireOk obj = true →
        box_method env m (.userdata obj :: rest) = m obj.value rest)
  ∧ (mutAcquireOk obj = true →
        box_method_mut env false m (.userdata obj :: rest) = m obj.value rest) := by
  have hs := box_method_resolved env obj m rest hd hk
  have hm := box_method_mut_resolved env obj m rest hd hk
  refine ⟨?_, ?_, ?_, ?_⟩ <;> intro hacq
  · rw [hs]
    exact (sharedDispatch_acquire obj m rest hk).1 hacq
  · rw [hm]
    exact (mutDispatch_acquire obj m rest hk).1 hacq
  · rw [hs]
    exact (sharedDispatch_acquire obj m rest hk).2 hacq
  · rw [hm]
    exact (mutDispatch_acquire obj m rest hk).2 hacq

/-- Witness for C2: a `Mutex`-wrapped object whose lock is held yields
BorrowConflict on a shared dispatch, and a free exact object lets the
exclusive dispatch run the closure. -/
theorem dispatch_borrow_conflict_witness :
    box_method stdEnv (fun v _ => Except.ok v)
        [CallbackArg.userdata ⟨.arcMutex, .free, .exclusive, (7 : Nat), false⟩]
      = .error .UserDataBorrowError
  ∧ box_method_mut stdEnv false (fun v _ => Except.ok v)
        [CallbackArg.userdata ⟨.exact, .free, .free, (3 : Nat), false⟩]
      = .ok 3 :=
  ⟨(dispatch_borrow_conflict stdEnv ⟨.arcMutex, .free, .exclusive, 7, false⟩
      (fun v _ => Except.ok v) [] rfl (by decide)).1 (by decide),
   (dispatch_borrow_conflict stdEnv ⟨.exact, .free, .free, 3, false⟩
      (fun v _ => Except.ok v) [] rfl (by decide)).2.2.2 (by decide)⟩

/-- Claim C8: a mutably-captured callback that is re-entered while an
activation is still executing fails with the dedicated RecursiveMutCallback
error instead of re-entering the closure, for both `box_function_mut` and
`box_method_mut`; a non-overlapping invocation runs the closure normally. -/
theorem recursive_mut_callback {Tv R : Type} (env : TypeIdEnv)
    (obj : LiveUserData Tv)
    (m : Tv → List (CallbackArg Tv) → Except Error R)
    (f : List (CallbackArg Tv) → Except Error R)
    (args rest : List (CallbackArg Tv)) :
    (box_function_mut true f args = .error .RecursiveMutCallback)
  ∧ (box_function_mut false f args = f args)
  ∧ (box_method_mut env true m (.userdata obj :: rest) = .error .RecursiveMutCallback)
  ∧ (obj.destructed = false → obj.kind ≠ .unrelated → mutAcquireOk obj = true →
      box_method_mut env false m (.userdata obj :: rest) = m obj.value rest) := by
  refine ⟨rfl, rfl, rfl, ?_⟩
  intro hd hk hacq
  rw [box_method_mut_resolved env obj m rest hd hk]
  exact (mutDispatch_acquire obj m rest hk).2 hacq

/-- Witness for C8: the overlapping invocation fails with
RecursiveMutCallback and the non-overlapping one runs the closure. -/
theorem recursive_mut_callback_witness :
    box_function_mut true (fun _ => Except.ok (0 : Nat))
        ([] : List (CallbackArg Nat)) = .error .RecursiveMutCallback
  ∧ box_method_mut stdEnv false (fun v _ => Except.ok v)
        [CallbackArg.userdata ⟨.exact, .free, .free, (5 : Nat), false⟩] = .ok 5 :=
  ⟨(recursive_mut_callback stdEnv ⟨.exact, .free, .free, (5 : Nat), false⟩
      (fun v _ => Except.ok v) (fun _ => Except.ok 0) [] []).1,
   (recursive_mut_callback stdEnv ⟨.exact, .free, .free, (5 : Nat), false⟩
      (fun v _ => Except.ok v) (fun _ => Except.ok 0) [] []).2.2.2 rfl (by decide) (by decide)⟩

/-- `AnyUserData::inspect`: pushes the handle's object, compares its reported
type identity against the exact payload type `T` only (never a wrapper type),
and hands the `UserDataCell` to the continuation on a match; everything else
is `UserDataTypeMismatch`. -/
def AnyUserData.inspect {Tv R : Type} (env : TypeIdEnv) (obj : LiveUserData Tv)
    (f : BorrowState → Tv → Except Error R) : Except Error R :=
  match pushUserdataRef env obj with
  | some id =>
    if id = env.idOf .exact then f obj.outer obj.value
    else .error .UserDataTypeMismatch
  | none => .error .UserDataTypeMismatch

/-- `AnyUserData::borrow::<T>`: inspect with `UserDataCell::try_borrow`. -/
def AnyUserData.borrow {Tv : Type} (env : TypeIdEnv) (obj : LiveUserData Tv) :
    Except Error Tv :=
  AnyUserData.inspect env obj fun st v =>
    if tryBorrowOk st then .ok v else .error .UserDataBorrowError

/-- `AnyUserData::borrow_mut::<T>`: inspect with
`UserDataCell::try_borrow_mut`. -/
def AnyUserData.borrow_mut {Tv : Type} (env : TypeIdEnv) (obj : LiveUserData Tv) :
    Except Error Tv :=
  AnyUserData.inspect env obj fun st v =>
    if tryBorrowMutOk st then .ok v else .error .UserDataBorrowMutError

/-- `AnyUserData::take::<T>`: pushes the object, requires an exact
type-identity match, probes `try_borrow_mut` on the cell (propagating
`UserDataBorrowMutError` with the object untouched), then detaches the
payload and installs the destructed marker metatable (`take_userdata` in
`util.rs`, modelled from the spec: the marker rejects all further access).
Returns the extracted payload together with the object's new state. -/
def AnyUserData.take {Tv : Type} (env : TypeIdEnv) (obj : LiveUserData Tv) :
    Except Error Tv × LiveUserData Tv :=
  match pushUserdataRef env obj with
  | some id =>
    if id = env.idOf .exact then
      if tryBorrowMutOk obj.outer then
        (.ok obj.value, { obj with destructed := true })
      else (.error .UserDataBorrowMutError, obj)
    else (.error .UserDataTypeMismatch, obj)
  | none => (.error .UserDataTypeMismatch, obj)

/-- Claim C3: `borrow::<T>` and `borrow_mut::<T>` succeed only on an exact
type-identity match (an ownership wrapper around `T` does not match); on an
exact match with the exclusivity invariant violated they fail with
BorrowConflict (respectively BorrowMutConflict), and on a non-match they
fail with TypeMismatch. -/
theorem borrow_exact_only {Tv : Type} (env : TypeIdEnv) (obj : LiveUserData Tv) :
    (obj.destructed = false → obj.kind = .exact →
        (tryBorrowOk obj.outer = true → AnyUserData.borrow env obj = .ok obj.value)
      ∧ (tryBorrowOk obj.outer = false →
          AnyUserData.borrow env obj = .error .UserDataBorrowError)
      ∧ (tryBorrowMutOk obj.outer = true →
          AnyUserData.borrow_mut env obj = .ok obj.value)
      ∧ (tryBorrowMutOk obj.outer = false →
          AnyUserData.borrow_mut env obj = .error .UserDataBorrowMutError))
  ∧ (obj.kind ≠ .exact ∨ obj.destructed = true →
        AnyUserData.borrow env obj = .error .UserDataTypeMismatch
      ∧ AnyUserData.borrow_mut env obj = .error .UserDataTypeMismatch) := by
  constructor
  · intro hd hk
    refine ⟨?_, ?_, ?_, ?_⟩ <;> intro hb <;>
      simp [AnyUserData.borrow, AnyUserData.borrow_mut, AnyUserData.inspect,
        pushUserdataRef, hd, hk, hb]
  · intro h
    rcases h with hk | hd
    · have hne : env.idOf obj.kind ≠ env.idOf .exact := fun he => hk (env.inj he)
      cases hdes : obj.destructed <;>
        constructor <;>
          simp [AnyUserData.borrow, AnyUserData.borrow_mut, AnyUserData.inspect,
            pushUserdataRef, hne, hdes]
    · constructor <;>
        simp [AnyUserData.borrow, AnyUserData.borrow_mut, AnyUserData.inspect,
          pushUserdataRef, hd]

/-- Witness for C3: borrow succeeds on a free exact object, and fails with
TypeMismatch on an `Arc<RwLock<T>>`-wrapped object. -/
theorem borrow_exact_only_witness :
    AnyUserData.borrow stdEnv (⟨.exact, .free, .free, (42 : Nat), false⟩ : LiveUserData Nat)
      = .ok 42
  ∧ AnyUserData.borrow stdEnv (⟨.arcRwLock, .free, .free, (42 : Nat), false⟩ : LiveUserData Nat)
      = .error .UserDataTypeMismatch :=
  ⟨((borrow_exact_only stdEnv ⟨.exact, .free, .free, 42, false⟩).1 rfl rfl).1 rfl,
   ((borrow_exact_only stdEnv ⟨.arcRwLock, .free, .free, 42, false⟩).2
      (Or.inl (by decide))).1⟩

/-- Claim C5: `take::<T>` fails with TypeMismatch when the live object's
exact type is not `T`; fails with BorrowMutConflict when the exclusive
borrow cannot be acquired, leaving the object's state untouched; and
otherwise returns the payload, leaving the object destructed so that every
further payload access (`borrow`, `borrow_mut`, another `take`) fails. -/
theorem take_contract {Tv : Type} (env : TypeIdEnv) (obj : LiveUserData Tv)
    (hd : obj.destructed = false) :
    (obj.kind ≠ .exact →
        AnyUserData.take env obj = (.error .UserDataTypeMismatch, obj))
  ∧ (obj.kind = .exact → tryBorrowMutOk obj.outer = false →
        AnyUserData.take env obj = (.error .UserDataBorrowMutError, obj))
  ∧ (obj.kind = .exact → tryBorrowMutOk obj.outer = true →
        AnyUserData.take env obj = (.ok obj.value, { obj with destructed := true })
      ∧ AnyUserData.borrow env { obj with destructed := true }
          = .error .UserDataTypeMismatch
      ∧ AnyUserData.borrow_mut env { obj with destructed := true }
          = .error .UserDataTypeMismatch
      ∧ (AnyUserData.take env { obj with destructed := true }).1
          = .error .UserDataTypeMismatch) := by
  refine ⟨?_, ?_, ?_⟩
  · intro hk
    have hne : env.idOf obj.kind ≠ env.idOf .exact := fun he => hk (env.inj he)
    simp [AnyUserData.take, pushUserdataRef, hd, hne]
  · intro hk hb
    simp [AnyUserData.take, pushUserdataRef, hd, hk, hb]
  · intro hk hb
    refine ⟨?_, ?_, ?_, ?_⟩ <;>
      simp [AnyUserData.take, AnyUserData.borrow, AnyUserData.borrow_mut,
        AnyUserData.inspect, pushUserdataRef, hd, hk, hb]

/-- Witness for C5: taking out of a free exact object returns the payload
and destructs the object; the destructed object rejects a further borrow. -/
theorem take_contract_witness :
    AnyUserData.take stdEnv (⟨.exact, .free, .free, (42 : Nat), false⟩ : LiveUserData Nat)
      = (.ok 42, ⟨.exact, .free, .free, 42, true⟩)
  ∧ AnyUserData.borrow stdEnv (⟨.exact, .free, .free, (42 : Nat), true⟩ : LiveUserData Nat)
      = .error .UserDataTypeMismatch :=
  ⟨((take_contract stdEnv ⟨.exact, .free, .free, 42, false⟩ rfl).2.2 rfl rfl).1,
   ((take_contract stdEnv ⟨.exact, .free, .free, 42, false⟩ rfl).2.2 rfl rfl).2.1⟩

/-- The `StaticUserDataMethods` registry: the ordered lists of (name,
callback) entries collected during a type's registration.  Callbacks are
kept abstract (`Cb`). -/
structure MethodsReg (Cb : Type) where
  methods : List (String × Cb)
  asyncMethods : List (String × Cb)
  metaMethods : List (String × Cb)
  asyncMetaMethods : List (String × Cb)
deriving DecidableEq

/-- `StaticUserDataMethods::default()`: all lists empty. -/
def MethodsReg.empty {Cb : Type} : MethodsReg Cb :=
  ⟨[], [], [], []⟩

/-- `UserDataMethods::add_callback`: push onto the regular-method list. -/
def MethodsReg.add_callback {Cb : Type} (r : MethodsReg Cb) (name : String) (cb : Cb) :
    MethodsReg Cb :=
  { r with methods := r.methods ++ [(name, cb)] }

/-- `UserDataMethods::add_async_callback`. -/
def MethodsReg.add_async_callback {Cb : Type} (r : MethodsReg Cb) (name : String) (cb : Cb) :
    MethodsReg Cb :=
  { r with asyncMethods := r.asyncMethods ++ [(name, cb)] }

/-- `UserDataMethods::add_meta_callback`. -/
def MethodsReg.add_meta_callback {Cb : Type} (r : MethodsReg Cb) (name : String) (cb : Cb) :
    MethodsReg Cb :=
  { r with metaMethods := r.metaMethods ++ [(name, cb)] }

/-- `UserDataMethods::add_async_meta_callback`. -/
def MethodsReg.add_async_meta_callback {Cb : Type} (r : MethodsReg Cb) (name : String)
    (cb : Cb) : MethodsReg Cb :=
  { r with asyncMetaMethods := r.asyncMetaMethods ++ [(name, cb)] }

/-- The `StaticUserDataFields` registry.  Meta-field initializers (`Mf`) are
carried for faithfulness; the wrapper forwarding below does not touch them,
exactly as in the source. -/
structure FieldsReg (Cb Mf : Type) where
  field_getters : List (String × Cb)
  field_setters : List (String × Cb)
  meta_fields : List (String × Mf)
deriving DecidableEq

/-- `StaticUserDataFields::default()`. -/
def FieldsReg.empty {Cb Mf : Type} : FieldsReg Cb Mf :=
  ⟨[], [], []⟩

/-- `UserDataFields::add_field_getter`. -/
def FieldsReg.add_field_getter {Cb Mf : Type} (r : FieldsReg Cb Mf) (name : String)
    (cb : Cb) : FieldsReg Cb Mf :=
  { r with field_getters := r.field_getters ++ [(name, cb)] }

/-- `UserDataFields::add_field_setter`. -/
def FieldsReg.add_field_setter {Cb Mf : Type} (r : FieldsReg Cb Mf) (name : String)
    (cb : Cb) : FieldsReg Cb Mf :=
  { r with field_setters := r.field_setters ++ [(name, cb)] }

/-- The `add_methods` body generated by the `lua_userdata_impl` macro for
every ownership wrapper of `T`: collect `T`'s own registration into a fresh
registry (`orig`), then forward each entry in order through the low-level
`add_callback` / `add_async_callback` / `add_meta_callback` /
`add_async_meta_callback` API into the wrapper's registry (`target`). -/
def wrapper_add_methods {Cb : Type} (orig target : MethodsReg Cb) : MethodsReg Cb :=
  let t1 := orig.methods.foldl (fun r p => r.add_callback p.1 p.2) target
  let t2 := orig.asyncMethods.foldl (fun r p => r.add_async_callback p.1 p.2) t1
  let t3 := orig.metaMethods.foldl (fun r p => r.add_meta_callback p.1 p.2) t2
  orig.asyncMetaMethods.foldl (fun r p => r.add_async_meta_callback p.1 p.2) t3

/-- The `add_fields` body generated by the `lua_userdata_impl` macro:
forward `T`'s field getters, then its field setters, in order. -/
def wrapper_add_fields {Cb Mf : Type} (orig target : FieldsReg Cb Mf) : FieldsReg Cb Mf :=
  let t1 := orig.field_getters.foldl (fun r p => r.add_field_getter p.1 p.2) target
  orig.field_setters.foldl (fun r p => r.add_field_setter p.1 p.2) t1

/-- Helper: folding `add_callback` over a list appends it to the method
list and touches nothing else. -/
theorem foldl_add_callback {Cb : Type} (l : List (String × Cb)) (r : MethodsReg Cb) :
    l.foldl (fun r p => r.add_callback p.1 p.2) r =
      { r with methods := r.methods ++ l } := by
  induction l generalizing r with
  | nil => simp
  | cons p l ih =>
    rw [List.foldl_cons, ih]
    simp [MethodsReg.add_callback]

/-- Helper: folding `add_async_callback` appends to the async-method list. -/
theorem foldl_add_async_callback {Cb : Type} (l : List (String × Cb)) (r : MethodsReg Cb) :
    l.foldl (fun r p => r.add_async_callback p.1 p.2) r =
      { r with asyncMethods := r.asyncMethods ++ l } := by
  induction l generalizing r with
  | nil => simp
  | cons p l ih =>
    rw [List.foldl_cons, ih]
    simp [MethodsReg.add_async_callback]

/-- Helper: folding `add_meta_callback` appends to the meta-method list. -/
theorem foldl_add_meta_callback {Cb : Type} (l : List (String × Cb)) (r : MethodsReg Cb) :
    l.foldl (fun r p => r.add_meta_callback p.1 p.2) r =
      { r with metaMethods := r.metaMethods ++ l } := by
  induction l generalizing r with
  | nil => simp
  | cons p l ih =>
    rw [List.foldl_cons, ih]
    simp [MethodsReg.add_meta_callback]

/-- Helper: folding `add_async_meta_callback` appends to the async-meta
list. -/
theorem foldl_add_async_meta_callback {Cb : Type} (l : List (String × Cb))
    (r : MethodsReg Cb) :
    l.foldl (fun r p => r.add_async_meta_callback p.1 p.2) r =
      { r with asyncMetaMethods := r.asyncMetaMethods ++ l } := by
  induction l generalizing r with
  | nil => simp
  | cons p l ih =>
    rw [List.foldl_cons, ih]
    simp [MethodsReg.add_async_meta_callback]

/-- Helper: folding `add_field_getter` appends to the getter list. -/
theorem foldl_add_field_getter {Cb Mf : Type} (l : List (String × Cb))
    (r : FieldsReg Cb Mf) :
    l.foldl (fun r p => r.add_field_getter p.1 p.2) r =
      { r with field_getters := r.field_getters ++ l } := by
  induction l generalizing r with
  | nil => simp
  | cons p l ih =>
    rw [List.foldl_cons, ih]
    simp [FieldsReg.add_field_getter]

/-- Helper: folding `add_field_setter` appends to the setter list. -/
theorem foldl_add_field_setter {Cb Mf : Type} (l : List (String × Cb))
    (r : FieldsReg Cb Mf) :
    l.foldl (fun r p => r.add_field_setter p.1 p.2) r =
      { r with field_setters := r.field_setters ++ l } := by
  induction l generalizing r with
  | nil => simp
  | cons p l ih =>
    rw [List.foldl_cons, ih]
    simp [FieldsReg.add_field_setter]

/-- Claim C9: registering any ownership wrapper of `T` (every wrapper uses
the same generated `lua_userdata_impl` body) produces exactly the sequences
of method entries, async-method entries, meta-method entries, async-meta
entries, field getters and field setters that registering `T` itself
produced (`orig`), forwarded in order with no entry added, dropped or
reordered. -/
theorem wrapper_registration_same {Cb Mf : Type} (orig : MethodsReg Cb)
    (origF : FieldsReg Cb Mf) :
    (wrapper_add_methods orig .empty).methods = orig.methods
  ∧ (wrapper_add_methods orig .empty).asyncMethods = orig.asyncMethods
  ∧ (wrapper_add_methods orig .empty).metaMethods = orig.metaMethods
  ∧ (wrapper_add_methods orig .empty).asyncMetaMethods = orig.asyncMetaMethods
  ∧ (wrapper_add_fields origF .empty).field_getters = origF.field_getters
  ∧ (wrapper_add_fields origF .empty).field_setters = origF.field_setters := by
  unfold wrapper_add_methods wrapper_add_fields
  simp [foldl_add_callback, foldl_add_async_callback, foldl_add_meta_callback,
    foldl_add_async_meta_callback, foldl_add_field_getter, foldl_add_field_setter,
    MethodsReg.empty, FieldsReg.empty]

end Mlua
